import Mathlib

/-!
Verification of the result-equivalence core of `evaluate_queries.py`.

The embedding models the three components of the file:

* `execute_query` — runs a SQL string against the database.  The database
  driver (psycopg2) is external, so it is abstracted as a `DbOracle` whose
  `connect` and `run` operations may fail with a stringified error.  The
  translation reproduces the `try/except/finally` control flow of the source,
  including the connection open/close events.

* `compare_query_results` — the comparator over pandas DataFrames.  A
  `DataFrame` is an ordered list of column labels together with rows of
  Python scalar values (`Scalar`: int, Decimal with its scale, bool, str,
  None — the value universe produced by the psycopg2 `RealDictCursor` for
  the column types the repository touches).  The pandas operations used by
  the source are translated faithfully:
  - `DataFrame.empty` is true when either axis has length 0;
  - `sort_values(by=all columns)` sorts rows lexicographically in the
    frame's own column order (a deterministic total order refining the
    Python value order; ties between distinct representations of the same
    value are broken by constructor, which is unobservable through the
    final equality check);
  - `DataFrame.equals` demands identical column labels in identical order,
    equal row counts, per-column equal inferred dtypes (`inferDtype`
    reproduces the pandas inference for this scalar universe), and
    element-wise Python equality (`pyEq`, which compares numerics by value).

* `evaluate_queries` — the driver.  File loading is external, so the driver
  takes the two parsed collections of (NL, Query) pairs directly, together
  with an executor function; the source instantiates that executor with
  `execute_query`.  Dictionary building (last-write-wins, first-insertion
  order), the skip of prompts missing from the output mapping, the Python
  truthiness test `if test_error or output_error`, the two diagnostic
  record shapes, and the guarded accuracy formula are all reproduced.
-/

/-- Python scalar values that can appear in a result-set cell: int, Decimal
(value together with its scale, e.g. Decimal 10.00 has value 10 and scale 2),
bool, str and None. -/
inductive Scalar where
  | pyInt (n : ℤ)
  | pyDec (q : ℚ) (scale : ℕ)
  | pyBool (b : Bool)
  | pyStr (s : String)
  | pyNone
deriving DecidableEq

/-- Sort key for a scalar: class rank (numerics before strings before None,
matching na_position last for null), numeric value, string data, constructor
rank and decimal scale.  The last two components only break ties between
distinct representations of equal values, so that the key order is a total
order on scalar terms. -/
abbrev SKey : Type := ℕ ×ₗ ℚ ×ₗ List Char ×ₗ ℕ ×ₗ ℕ

/-- Sort key of a scalar value. -/
def Scalar.key : Scalar → SKey
  | .pyBool b => toLex (0, toLex ((if b then (1 : ℚ) else 0), toLex ([], toLex (0, 0))))
  | .pyInt n => toLex (0, toLex ((n : ℚ), toLex ([], toLex (1, 0))))
  | .pyDec q s => toLex (0, toLex (q, toLex ([], toLex (2, s))))
  | .pyStr s => toLex (1, toLex (0, toLex (s.data, toLex (0, 0))))
  | .pyNone => toLex (2, toLex (0, toLex ([], toLex (0, 0))))

/-- Decoder of a sort key back to the scalar it came from; witnesses that
`Scalar.key` is injective. -/
def Scalar.unkey (k : SKey) : Scalar :=
  let p1 := ofLex k
  let p2 := ofLex p1.2
  let p3 := ofLex p2.2
  let p4 := ofLex p3.2
  if p1.1 = 0 then
    if p4.1 = 0 then .pyBool (p2.1 == 1)
    else if p4.1 = 1 then .pyInt p2.1.num
    else .pyDec p2.1 p4.2
  else if p1.1 = 1 then .pyStr (String.mk p3.1)
  else .pyNone

/-- Row order used by the canonicalizing sort: lexicographic comparison of the
rows' scalar sort keys, i.e. sorting by all columns in the frame's own column
order, as `sort_values(by=df.columns.tolist())` does. -/
def rowRel (r1 r2 : List Scalar) : Prop :=
  (r1.map Scalar.key : List SKey) ≤ r2.map Scalar.key

instance : DecidableRel rowRel := fun r1 r2 =>
  inferInstanceAs (Decidable ((r1.map Scalar.key : List SKey) ≤ r2.map Scalar.key))

/-- String order of Python sorted(), used on the column-name lists:
lexicographic by code point. -/
def strLe (a b : String) : Prop := (a.data : List Char) ≤ b.data

instance : DecidableRel strLe := fun a b =>
  inferInstanceAs (Decidable ((a.data : List Char) ≤ b.data))

/-- Python sorted() on a list of strings. -/
def sortStrings (l : List String) : List String := List.insertionSort strLe l

/-- Pandas column dtypes arising for this scalar universe. -/
inductive Dtype where
  | int64
  | float64
  | boolDt
  | objDt
deriving DecidableEq

/-- Test for a Python int value. -/
def Scalar.isInt : Scalar → Bool
  | .pyInt _ => true
  | _ => false

/-- Test for a Python bool value. -/
def Scalar.isBool : Scalar → Bool
  | .pyBool _ => true
  | _ => false

/-- Test for the Python None value. -/
def Scalar.isNone : Scalar → Bool
  | .pyNone => true
  | _ => false

/-- Dtype pandas infers for a column holding the given values: all ints give
int64, all bools give bool, ints with at least one None give float64 (the
Nones becoming NaN), and anything else (Decimals, strings, all-None, mixed)
is stored as an object column. -/
def inferDtype (vs : List Scalar) : Dtype :=
  if !vs.isEmpty && vs.all Scalar.isInt then .int64
  else if !vs.isEmpty && vs.all Scalar.isBool then .boolDt
  else if vs.all (fun v => v.isInt || v.isNone) && vs.any Scalar.isInt
      && vs.any Scalar.isNone then .float64
  else .objDt

/-- Element-wise equality pandas applies inside a column once the dtypes
match: Python == on the values, with numerics (int, bool, Decimal) compared
by numeric value regardless of representation, and nulls in corresponding
positions counted as equal. -/
def pyEq : Scalar → Scalar → Bool
  | .pyInt a, .pyInt b => decide (a = b)
  | .pyInt a, .pyDec q _ => decide ((a : ℚ) = q)
  | .pyDec q _, .pyInt a => decide (q = (a : ℚ))
  | .pyDec q _, .pyDec r _ => decide (q = r)
  | .pyInt a, .pyBool b => decide (a = (if b then 1 else 0))
  | .pyBool b, .pyInt a => decide ((if b then (1 : ℤ) else 0) = a)
  | .pyBool b, .pyDec q _ => decide (((if b then 1 else 0) : ℚ) = q)
  | .pyDec q _, .pyBool b => decide (q = ((if b then 1 else 0) : ℚ))
  | .pyBool a, .pyBool b => decide (a = b)
  | .pyStr a, .pyStr b => decide (a = b)
  | .pyNone, .pyNone => true
  | _, _ => false

/-- Pandas DataFrame: ordered column labels and rows, each row listing its
values in column order (the shape `pd.DataFrame(list_of_RealDictRows)`
produces). -/
structure DataFrame where
  cols : List String
  rows : List (List Scalar)
deriving DecidableEq

/-- Pandas DataFrame.empty: true when either axis has length 0. -/
def DataFrame.empty (df : DataFrame) : Bool := df.rows.isEmpty || df.cols.isEmpty

/-- Values of the j-th column, top to bottom. -/
def colVals (df : DataFrame) (j : ℕ) : List Scalar :=
  df.rows.map (fun r => r.getD j Scalar.pyNone)

/-- Pandas DataFrame.equals after both frames got a fresh RangeIndex:
identical column labels in identical order, equal row counts, and per
column an equal inferred dtype plus element-wise Python equality. -/
def dfEquals (d1 d2 : DataFrame) : Bool :=
  decide (d1.cols = d2.cols) && decide (d1.rows.length = d2.rows.length) &&
    (List.range d1.cols.length).all (fun j =>
      decide (inferDtype (colVals d1 j) = inferDtype (colVals d2 j)) &&
        ((colVals d1 j).zip (colVals d2 j)).all (fun p => pyEq p.1 p.2))

/-- Canonicalization step of the source:
df.sort_values(by=df.columns.tolist()).reset_index(drop=True) — sort the rows
by all columns in the frame's own column order. -/
def canonDF (df : DataFrame) : DataFrame :=
  { cols := df.cols, rows := List.insertionSort rowRel df.rows }

/-- Translation of compare_query_results: None on either side is no-match;
then the empty checks, the sorted column-name comparison, and finally
DataFrame.equals of the two row-sorted frames. -/
def compare_query_results : Option DataFrame → Option DataFrame → Bool
  | none, _ => false
  | some _, none => false
  | some df1, some df2 =>
    if df1.empty != df2.empty then false
    else if df1.empty && df2.empty then true
    else if sortStrings df1.cols ≠ sortStrings df2.cols then false
    else dfEquals (canonDF df1) (canonDF df2)

/-- Abstraction of the external psycopg2 layer used by execute_query: opening
a connection (get_db_connection together with the autocommit toggle) and
running one query through a RealDictCursor (execute plus fetchall, each row an
ordered mapping from column name to value).  Either step may fail, carrying
the stringified exception. -/
structure DbOracle where
  connect : Except String Unit
  run : String → Except String (List (List (String × Scalar)))

/-- Connection lifecycle events of one execute_query call. -/
inductive Ev where
  | openC
  | closeC
deriving DecidableEq

/-- Conversion pd.DataFrame(results) applied to the fetched RealDictCursor
rows: column labels are the keys in order of first appearance, every row is
aligned to that label list, missing keys becoming nulls. -/
def pdDataFrame (results : List (List (String × Scalar))) : DataFrame :=
  let cols := results.foldl
    (fun acc r => acc ++ ((r.map Prod.fst).filter (fun k => !acc.contains k))) []
  { cols := cols
    rows := results.map (fun r => cols.map (fun c => ((r.lookup c).getD Scalar.pyNone))) }

/-- Translation of execute_query with its try/except/finally control flow.
If connecting raises, conn is still None, the except clause returns the
Failure pair and the finally clause closes nothing.  Once connected, the
query either succeeds (the fetched rows become a DataFrame) or raises (the
except clause catches any exception and returns its string); in both cases
the finally clause closes the opened connection.  The second component is
the trace of connection events. -/
def execute_query (db : DbOracle) (query : String) :
    (Option DataFrame × Option String) × List Ev :=
  match db.connect with
  | .error e => ((none, some e), [])
  | .ok _ =>
    match db.run query with
    | .ok results => ((some (pdDataFrame results), none), [Ev.openC, Ev.closeC])
    | .error e => ((none, some e), [Ev.openC, Ev.closeC])

/-- Rendering of one scalar in the textual dump of a DataFrame. -/
def scalarText : Scalar → String
  | .pyInt n => toString n
  | .pyDec q s => toString q ++ "E-" ++ toString s
  | .pyBool b => toString b
  | .pyStr s => s
  | .pyNone => "None"

/-- Stand-in for the external pandas DataFrame.to_string renderer: a textual
dump of the column labels and rows.  No claim depends on the exact text. -/
def dfToString (df : DataFrame) : String :=
  String.intercalate " " df.cols ++
    String.intercalate "\x0a" (df.rows.map (fun r => String.intercalate " " (r.map scalarText)))

/-- Stand-in for the external hashlib md5 hexdigest: modelled as the identity
on the rendered text, an injective stand-in for a collision-resistant hash.
No claim depends on the hash values. -/
def md5Hexdigest (s : String) : String := s

/-- Translation of generate_result_signature: the fixed text for a missing or
empty result, otherwise the hash of the rendered DataFrame. -/
def generate_result_signature : Option DataFrame → String
  | none => "empty_result"
  | some df => if df.empty then "empty_result" else md5Hexdigest (dfToString df)

/-- Shape recorded in a mismatch diagnostic: df.shape (rows, columns) when
the result exists, None otherwise. -/
def shapeOf : Option DataFrame → Option (ℕ × ℕ)
  | none => none
  | some df => some (df.rows.length, df.cols.length)

/-- Python truthiness of an optional error string: None and the empty string
are falsy, every other string is truthy. -/
def truthy : Option String → Bool
  | none => false
  | some s => !s.isEmpty

/-- Diagnostic records appended to the errors list by the driver: the
execution-error shape carries the two error messages, the mismatch shape
carries the two result signatures and shapes. -/
inductive Record where
  | errorRec (nl expected actual : String) (expectedErr actualErr : Option String)
  | mismatchRec (nl expected actual : String) (expectedSig actualSig : String)
      (expectedShape actualShape : Option (ℕ × ℕ))
deriving DecidableEq

/-- Test for the execution-error record shape. -/
def Record.isErrorRec : Record → Bool
  | .errorRec _ _ _ _ _ => true
  | _ => false

/-- Test for the mismatch record shape. -/
def Record.isMismatchRec : Record → Bool
  | .mismatchRec _ _ _ _ _ _ _ => true
  | _ => false

/-- One insertion into a Python dict built by comprehension: an existing key
keeps its position but takes the new value (last write wins), a new key is
appended. -/
def dictInsert (d : List (String × String)) (k v : String) : List (String × String) :=
  if (d.lookup k).isSome then d.map (fun p => if p.1 = k then (k, v) else p)
  else d ++ [(k, v)]

/-- Dict comprehension of the driver: the association list keyed by NL built
from a collection of (NL, Query) items, iterated in insertion order. -/
def buildDict (l : List (String × String)) : List (String × String) :=
  l.foldl (fun d p => dictInsert d p.1 p.2) []

/-- Loop body of the driver over the test dictionary items: a prompt absent
from the output dictionary is skipped entirely; otherwise both queries are
executed, and the pair is counted and classified by the truthiness test on
the error messages, then by the comparator.  Returns (total, matches,
errors-in-iteration-order). -/
def evalPairs (ex : String → Option DataFrame × Option String)
    (outDict : List (String × String)) :
    List (String × String) → ℕ × ℕ × List Record
  | [] => (0, 0, [])
  | (nl, tq) :: rest =>
    match outDict.lookup nl with
    | none => evalPairs ex outDict rest
    | some oq =>
      if truthy (ex tq).2 || truthy (ex oq).2 then
        ((evalPairs ex outDict rest).1 + 1, (evalPairs ex outDict rest).2.1,
          Record.errorRec nl tq oq (ex tq).2 (ex oq).2 :: (evalPairs ex outDict rest).2.2)
      else if compare_query_results (ex tq).1 (ex oq).1 then
        ((evalPairs ex outDict rest).1 + 1, (evalPairs ex outDict rest).2.1 + 1,
          (evalPairs ex outDict rest).2.2)
      else
        ((evalPairs ex outDict rest).1 + 1, (evalPairs ex outDict rest).2.1,
          Record.mismatchRec nl tq oq (generate_result_signature (ex tq).1)
              (generate_result_signature (ex oq).1) (shapeOf (ex tq).1) (shapeOf (ex oq).1)
            :: (evalPairs ex outDict rest).2.2)

/-- Result quadruple of evaluate_queries: accuracy percentage, diagnostics
list, matching count and total count. -/
structure EvalSummary where
  accuracy : ℚ
  errors : List Record
  matchCount : ℕ
  total : ℕ
deriving DecidableEq

/-- Translation of evaluate_queries.  File loading and JSON parsing are
external, so the two parsed collections are taken directly; the executor is
taken as a function, instantiated by the source with execute_query.  Builds
the two dictionaries, walks the test dictionary accumulating counts and
diagnostics, and computes the guarded accuracy. -/
def evaluate_queries (ex : String → Option DataFrame × Option String)
    (testData outputData : List (String × String)) : EvalSummary :=
  let testDict := buildDict testData
  let outDict := buildDict outputData
  let r := evalPairs ex outDict testDict
  { accuracy := if 0 < r.1 then ((r.2.1 : ℚ) / (r.1 : ℚ)) * 100 else 0
    errors := r.2.2
    matchCount := r.2.1
    total := r.1 }

/-- Driver as actually wired in the source: the executor argument is
execute_query over the database the oracle describes. -/
def evaluate_queries_db (db : DbOracle) (testData outputData : List (String × String)) :
    EvalSummary :=
  evaluate_queries (fun q => (execute_query db q).1) testData outputData

/-- Order on (column name, value) pairs by column name, used only to read a
positional row back as the mapping it represents when stating that two frames
hold the same logical rows. -/
def pairLe (p q : String × Scalar) : Prop := strLe p.1 q.1

instance : DecidableRel pairLe := fun p q =>
  inferInstanceAs (Decidable (strLe p.1 q.1))

/-- Rows of a frame read back as mappings: each positional row paired with
the column labels and put in column-name order.  Two frames with the same
rowMaps hold exactly the same logical rows. -/
def rowMaps (d : DataFrame) : List (List (String × Scalar)) :=
  d.rows.map (fun r => List.insertionSort pairLe (d.cols.zip r))

/-- Executor behaviour where every query fails with a non-empty stringified
error. -/
def exFail : String → Option DataFrame × Option String :=
  fun q => (none, some ("err " ++ q))

/-- Executor behaviour where every query fails and the stringified exception
is the empty string (str(e) of an exception constructed without arguments). -/
def exEmptyErr : String → Option DataFrame × Option String :=
  fun _ => (none, some "")

theorem Scalar.unkey_key (a : Scalar) : Scalar.unkey a.key = a := by
  cases a with
  | pyInt n => simp [Scalar.key, Scalar.unkey]
  | pyDec q s => simp [Scalar.key, Scalar.unkey]
  | pyBool b => cases b <;> simp [Scalar.key, Scalar.unkey]
  | pyStr s => simp [Scalar.key, Scalar.unkey]
  | pyNone => simp [Scalar.key, Scalar.unkey]

theorem Scalar.key_inj {a b : Scalar} (h : a.key = b.key) : a = b := by
  rw [← Scalar.unkey_key a, ← Scalar.unkey_key b, h]

instance : IsTotal (List Scalar) rowRel :=
  ⟨fun a b => le_total (a.map Scalar.key) (b.map Scalar.key)⟩

instance : IsTrans (List Scalar) rowRel :=
  ⟨fun _ _ _ h1 h2 => le_trans h1 h2⟩

instance : IsAntisymm (List Scalar) rowRel :=
  ⟨fun _ _ h1 h2 =>
    List.map_injective_iff.mpr (fun _ _ h => Scalar.key_inj h) (le_antisymm h1 h2)⟩

theorem sortRows_eq_of_perm {l1 l2 : List (List Scalar)} (h : l1.Perm l2) :
    List.insertionSort rowRel l1 = List.insertionSort rowRel l2 :=
  List.eq_of_perm_of_sorted
    ((List.perm_insertionSort rowRel l1).trans (h.trans (List.perm_insertionSort rowRel l2).symm))
    (List.sorted_insertionSort rowRel l1) (List.sorted_insertionSort rowRel l2)

theorem canonDF_cols (d : DataFrame) : (canonDF d).cols = d.cols := rfl

theorem canonDF_length (d : DataFrame) : (canonDF d).rows.length = d.rows.length :=
  List.length_insertionSort rowRel d.rows

theorem pyEq_refl (v : Scalar) : pyEq v v = true := by
  cases v <;> simp [pyEq]

theorem pyEq_symm (a b : Scalar) : pyEq a b = pyEq b a := by
  cases a <;> cases b <;>
    first
      | rfl
      | (simp only [pyEq]; exact decide_eq_decide.mpr eq_comm)

theorem zipAll_pyEq_refl (l : List Scalar) :
    (l.zip l).all (fun p => pyEq p.1 p.2) = true := by
  induction l with
  | nil => rfl
  | cons a l ih => simp [List.zip_cons_cons, pyEq_refl, ih]

theorem zipAll_pyEq_symm (xs ys : List Scalar) :
    ((xs.zip ys).all fun p => pyEq p.1 p.2) = ((ys.zip xs).all fun p => pyEq p.1 p.2) := by
  induction xs generalizing ys with
  | nil => cases ys <;> rfl
  | cons a xs ih =>
    cases ys with
    | nil => rfl
    | cons b ys => simp [List.zip_cons_cons, pyEq_symm a b, ih ys]

theorem dfEquals_refl (d : DataFrame) : dfEquals d d = true := by
  simp [dfEquals, zipAll_pyEq_refl]

theorem dfEquals_symm (d1 d2 : DataFrame) : dfEquals d1 d2 = dfEquals d2 d1 := by
  unfold dfEquals
  by_cases hc : d1.cols = d2.cols
  · by_cases hl : d1.rows.length = d2.rows.length
    · have hfun : (fun j => decide (inferDtype (colVals d1 j) = inferDtype (colVals d2 j)) &&
            (((colVals d1 j).zip (colVals d2 j)).all fun p => pyEq p.1 p.2)) =
          (fun j => decide (inferDtype (colVals d2 j) = inferDtype (colVals d1 j)) &&
            (((colVals d2 j).zip (colVals d1 j)).all fun p => pyEq p.1 p.2)) := by
        funext j
        rw [zipAll_pyEq_symm]
        rw [show decide (inferDtype (colVals d1 j) = inferDtype (colVals d2 j)) =
            decide (inferDtype (colVals d2 j) = inferDtype (colVals d1 j)) from
          decide_eq_decide.mpr eq_comm]
      rw [hc, hl, hfun]
    · have e1 : decide (d1.rows.length = d2.rows.length) = false := decide_eq_false hl
      have e2 : decide (d2.rows.length = d1.rows.length) = false :=
        decide_eq_false fun h => hl h.symm
      simp only [e1, e2, Bool.and_false, Bool.false_and]
  · have e1 : decide (d1.cols = d2.cols) = false := decide_eq_false hc
    have e2 : decide (d2.cols = d1.cols) = false := decide_eq_false fun h => hc h.symm
    simp only [e1, e2, Bool.false_and]

theorem isEmpty_false_of_ne_nil {α : Type _} {l : List α} (h : l ≠ []) : l.isEmpty = false := by
  cases l with
  | nil => exact absurd rfl h
  | cons a t => rfl

theorem isEmpty_eq_of_perm {α : Type _} {l1 l2 : List α} (h : l1.Perm l2) :
    l1.isEmpty = l2.isEmpty := by
  cases l1 with
  | nil => rw [h.nil_eq]
  | cons a t =>
    cases l2 with
    | nil => exact absurd h.symm.nil_eq (by simp)
    | cons b u => rfl

theorem evalPairs_total_countP (ex : String → Option DataFrame × Option String)
    (od : List (String × String)) (l : List (String × String)) :
    (evalPairs ex od l).1 = l.countP (fun p => (od.lookup p.1).isSome) := by
  induction l with
  | nil => rfl
  | cons hd rest ih =>
    obtain ⟨nl, tq⟩ := hd
    cases hlook : od.lookup nl with
    | none => simp [evalPairs, hlook, List.countP_cons, ih]
    | some oq =>
      simp only [evalPairs, hlook]
      split_ifs <;> simp [List.countP_cons, hlook, ih]

theorem evalPairs_partition (ex : String → Option DataFrame × Option String)
    (od : List (String × String)) (l : List (String × String)) :
    (evalPairs ex od l).1 = (evalPairs ex od l).2.1
      + ((evalPairs ex od l).2.2.countP Record.isErrorRec)
      + ((evalPairs ex od l).2.2.countP Record.isMismatchRec) := by
  induction l with
  | nil => rfl
  | cons hd rest ih =>
    obtain ⟨nl, tq⟩ := hd
    cases hlook : od.lookup nl with
    | none => simp only [evalPairs, hlook]; exact ih
    | some oq =>
      simp only [evalPairs, hlook]
      split_ifs <;>
        simp [List.countP_cons, Record.isErrorRec, Record.isMismatchRec] <;>
        omega

theorem evalPairs_matchCount_le (ex : String → Option DataFrame × Option String)
    (od : List (String × String)) (l : List (String × String)) :
    (evalPairs ex od l).2.1 ≤ (evalPairs ex od l).1 := by
  have h := evalPairs_partition ex od l
  omega

theorem evalPairs_all_missing (ex : String → Option DataFrame × Option String)
    (od : List (String × String)) (l : List (String × String))
    (h : ∀ p ∈ l, od.lookup p.1 = none) : evalPairs ex od l = (0, 0, []) := by
  induction l with
  | nil => rfl
  | cons hd rest ih =>
    obtain ⟨nl, tq⟩ := hd
    have hlook : od.lookup nl = none := h (nl, tq) (List.mem_cons_self _ _)
    simp only [evalPairs, hlook]
    exact ih fun p hp => h p (List.mem_cons_of_mem _ hp)

theorem lookup_isSome_mem {l : List (String × String)} {k : String}
    (h : (l.lookup k).isSome = true) : k ∈ l.map Prod.fst := by
  induction l with
  | nil => simp [List.lookup] at h
  | cons hd rest ih =>
    obtain ⟨a, b⟩ := hd
    by_cases hk : k = a
    · simp [hk]
    · have hb : (k == a) = false := beq_false_of_ne hk
      rw [List.lookup] at h
      rw [hb] at h
      exact List.mem_cons_of_mem _ (ih h)

theorem fst_mem_dictInsert {d : List (String × String)} {k v x : String}
    (h : x ∈ (dictInsert d k v).map Prod.fst) : x ∈ d.map Prod.fst ∨ x = k := by
  unfold dictInsert at h
  split at h
  · rw [List.map_map] at h
    obtain ⟨p, hp, hx⟩ := List.mem_map.mp h
    by_cases hpk : p.1 = k
    · right
      simp [Function.comp, hpk] at hx
      exact hx.symm
    · left
      simp only [Function.comp, hpk, if_false] at hx
      exact hx ▸ List.mem_map_of_mem Prod.fst hp
  · rw [List.map_append] at h
    rcases List.mem_append.mp h with h1 | h2
    · exact Or.inl h1
    · simp at h2
      exact Or.inr h2

theorem fst_mem_buildDict {l : List (String × String)} {x : String}
    (h : x ∈ (buildDict l).map Prod.fst) : x ∈ l.map Prod.fst := by
  suffices key : ∀ (l : List (String × String)) (acc : List (String × String)) (x : String),
      x ∈ (l.foldl (fun d p => dictInsert d p.1 p.2) acc).map Prod.fst →
      x ∈ acc.map Prod.fst ∨ x ∈ l.map Prod.fst by
    rcases key l [] x h with h1 | h2
    · simp at h1
    · exact h2
  intro l
  induction l with
  | nil => intro acc x h; exact Or.inl h
  | cons hd rest ih =>
    intro acc x h
    rcases ih (dictInsert acc hd.1 hd.2) x h with h1 | h2
    · rcases fst_mem_dictInsert h1 with h3 | h4
      · exact Or.inl h3
      · exact Or.inr (by simp [h4])
    · exact Or.inr (List.mem_cons_of_mem _ h2)

/-- C10: the comparator is symmetric: for every pair of execution outcomes
(missing DataFrame for a Failure, present DataFrame for a Success),
compare_query_results gives the same answer in both argument orders. -/
theorem compare_query_results_symm (a b : Option DataFrame) :
    compare_query_results a b = compare_query_results b a := by
  cases a with
  | none => cases b <;> rfl
  | some d1 =>
    cases b with
    | none => rfl
    | some d2 =>
      simp only [compare_query_results]
      have hb : (d1.empty != d2.empty) = (d2.empty != d1.empty) := by
        cases d1.empty <;> cases d2.empty <;> rfl
      rw [hb, Bool.and_comm d1.empty d2.empty]
      by_cases hbe : (d2.empty != d1.empty) = true
      · rw [if_pos hbe, if_pos hbe]
      · rw [if_neg hbe, if_neg hbe]
        by_cases hae : (d2.empty && d1.empty) = true
        · rw [if_pos hae, if_pos hae]
        · rw [if_neg hae, if_neg hae]
          by_cases hs : sortStrings d1.cols = sortStrings d2.cols
          · rw [if_neg (by simp [hs]), if_neg (by simp [hs]), dfEquals_symm]
          · rw [if_pos hs, if_pos fun h => hs h.symm]

/-- C4: for every result set and every reordering of its rows (same multiset
of rows, same column list), compare_query_results answers match; reflexivity
is the special case of the identity permutation, and duplicate rows are
covered since permutations preserve multiplicity. -/
theorem compare_perm_rows (d1 d2 : DataFrame) (hc : d2.cols = d1.cols)
    (hr : d2.rows.Perm d1.rows) :
    compare_query_results (some d1) (some d2) = true := by
  have hemp : d2.empty = d1.empty := by
    unfold DataFrame.empty
    rw [hc, isEmpty_eq_of_perm hr]
  simp only [compare_query_results]
  rw [hemp]
  have hcols : sortStrings d2.cols = sortStrings d1.cols := by rw [hc]
  by_cases he : d1.empty
  · simp [he]
  · have hcanon : canonDF d2 = canonDF d1 := by
      unfold canonDF
      rw [hc, sortRows_eq_of_perm hr]
    simp [he, hcols, hcanon, dfEquals_refl]

/-- Witness for C4 at a concrete frame with duplicate rows and a genuine
reordering. -/
theorem compare_perm_rows_witness :
    compare_query_results
      (some ⟨["a", "b"], [[.pyInt 1, .pyStr "x"], [.pyInt 1, .pyStr "x"], [.pyInt 2, .pyStr "y"]]⟩)
      (some ⟨["a", "b"], [[.pyInt 2, .pyStr "y"], [.pyInt 1, .pyStr "x"], [.pyInt 1, .pyStr "x"]]⟩)
      = true :=
  compare_perm_rows _ _ rfl (by decide)

/-- C1 (amended): for non-empty result sets the comparator requires the two
column lists to be identical in order: whenever the column lists differ —
even as mere reorderings of the same column-name set over identical logical
rows — the answer is no-match.  Only the two-empty-frames case is insensitive
to the column lists. -/
theorem compare_needs_same_col_order (d1 d2 : DataFrame) (h1 : d1.empty = false)
    (h2 : d2.empty = false) (hc : d1.cols ≠ d2.cols) :
    compare_query_results (some d1) (some d2) = false := by
  simp only [compare_query_results, h1, h2]
  by_cases hs : sortStrings d1.cols ≠ sortStrings d2.cols
  · simp [hs]
  · have hdf : dfEquals (canonDF d1) (canonDF d2) = false := by
      unfold dfEquals
      have hfalse : decide ((canonDF d1).cols = (canonDF d2).cols) = false :=
        decide_eq_false (by simpa [canonDF] using hc)
      simp [hfalse]
    simp [hs, hdf]

/-- Witness for C1 (amended) at two one-row frames with different column
sets. -/
theorem compare_needs_same_col_order_witness :
    DataFrame.empty ⟨["a"], [[.pyInt 1]]⟩ = false ∧
    DataFrame.empty ⟨["b"], [[.pyInt 1]]⟩ = false ∧
    (["a"] : List String) ≠ ["b"] ∧
    compare_query_results (some ⟨["a"], [[.pyInt 1]]⟩) (some ⟨["b"], [[.pyInt 1]]⟩) = false :=
  ⟨rfl, rfl, by decide, compare_needs_same_col_order _ _ rfl rfl (by decide)⟩

/-- Counterexample to C1 as stated: two one-row frames holding the same
logical row (same mappings, as rowMaps shows) over the same column-name set
(as the sorted column lists show), presented in different column orders,
compare as no-match rather than match. -/
theorem compare_col_order_counterexample :
    rowMaps ⟨["a", "b"], [[.pyInt 1, .pyInt 2]]⟩ = rowMaps ⟨["b", "a"], [[.pyInt 2, .pyInt 1]]⟩ ∧
    sortStrings ["a", "b"] = sortStrings ["b", "a"] ∧
    compare_query_results (some ⟨["a", "b"], [[.pyInt 1, .pyInt 2]]⟩)
      (some ⟨["b", "a"], [[.pyInt 2, .pyInt 1]]⟩) = false := by
  refine ⟨by decide, by decide, by decide⟩

/-- C2 (amended): for one-row one-column result sets the comparator answers
match exactly when the two values are Python-equal (numerics by value) AND
the two columns get the same inferred pandas dtype.  Numeric value equality
alone is not enough: 10 as an int against 10.00 as a Decimal is no-match
because the dtypes differ, while 10 against 10.00 both as Decimals is a
match; 10 against 11 is never a match. -/
theorem compare_single_cell (v w : Scalar) :
    compare_query_results (some ⟨["a"], [[v]]⟩) (some ⟨["a"], [[w]]⟩) =
      (decide (inferDtype [v] = inferDtype [w]) && pyEq v w) := by
  simp [compare_query_results, DataFrame.empty, sortStrings, canonDF, dfEquals, colVals,
    List.insertionSort, List.orderedInsert, List.range_succ, List.getD, Bool.and_true]

/-- Counterexample to C2 as stated: 10 and 10.00 are numerically equal
(pyEq agrees) yet the int-vs-Decimal pair compares as no-match; the same
values both held as Decimals do compare as match, and 10 vs 11 is unequal. -/
theorem compare_numeric_value_counterexample :
    pyEq (.pyInt 10) (.pyDec 10 2) = true ∧
    compare_query_results (some ⟨["a"], [[.pyInt 10]]⟩)
      (some ⟨["a"], [[.pyDec 10 2]]⟩) = false ∧
    compare_query_results (some ⟨["a"], [[.pyDec 10 0]]⟩)
      (some ⟨["a"], [[.pyDec 10 2]]⟩) = true ∧
    compare_query_results (some ⟨["a"], [[.pyInt 10]]⟩)
      (some ⟨["a"], [[.pyInt 11]]⟩) = false := by
  refine ⟨by decide, by decide, by decide, by decide⟩

theorem eq_nil_of_isEmpty {α : Type _} {l : List α} (h : l.isEmpty = true) : l = [] := by
  cases l with
  | nil => rfl
  | cons a t => simp at h

/-- C5 (amended): provided each frame has at least one column, result sets
with different row counts — in particular one holding a row twice against
one holding it once — never compare as match; sorting preserves
multiplicity.  The proviso is forced by the degenerate zero-column case,
where pandas treats every frame as empty and any two such frames compare as
match regardless of row counts. -/
theorem compare_row_counts (d1 d2 : DataFrame) (h1 : d1.cols ≠ []) (h2 : d2.cols ≠ [])
    (hlen : d1.rows.length ≠ d2.rows.length) :
    compare_query_results (some d1) (some d2) = false := by
  have he1 : d1.empty = d1.rows.isEmpty := by
    unfold DataFrame.empty
    rw [isEmpty_false_of_ne_nil h1, Bool.or_false]
  have he2 : d2.empty = d2.rows.isEmpty := by
    unfold DataFrame.empty
    rw [isEmpty_false_of_ne_nil h2, Bool.or_false]
  simp only [compare_query_results, he1, he2]
  cases hb1 : d1.rows.isEmpty with
  | true =>
    cases hb2 : d2.rows.isEmpty with
    | true => exact absurd (by rw [eq_nil_of_isEmpty hb1, eq_nil_of_isEmpty hb2]) hlen
    | false => rfl
  | false =>
    cases hb2 : d2.rows.isEmpty with
    | true => rfl
    | false =>
      by_cases hs : sortStrings d1.cols ≠ sortStrings d2.cols
      · simp [hs]
      · have hdf : dfEquals (canonDF d1) (canonDF d2) = false := by
          unfold dfEquals
          have hd : decide ((canonDF d1).rows.length = (canonDF d2).rows.length) = false := by
            rw [canonDF_length, canonDF_length]
            exact decide_eq_false hlen
          simp [hd]
        simp [hs, hdf]

/-- Witness for C5 (amended): one column, the row (1) held twice against
once — no match. -/
theorem compare_row_counts_witness :
    (⟨["a"], [[.pyInt 1], [.pyInt 1]]⟩ : DataFrame).cols ≠ [] ∧
    (⟨["a"], [[.pyInt 1]]⟩ : DataFrame).cols ≠ [] ∧
    (⟨["a"], [[.pyInt 1], [.pyInt 1]]⟩ : DataFrame).rows.length ≠
      (⟨["a"], [[.pyInt 1]]⟩ : DataFrame).rows.length ∧
    compare_query_results (some ⟨["a"], [[.pyInt 1], [.pyInt 1]]⟩)
      (some ⟨["a"], [[.pyInt 1]]⟩) = false :=
  ⟨by decide, by decide, by decide,
    compare_row_counts _ _ (by decide) (by decide) (by decide)⟩

/-- Counterexample to C5 as stated: with the zero-column row (a reachable
shape, e.g. SELECT FROM t in PostgreSQL), a frame holding that row twice and
a frame holding it once both count as pandas-empty, and the comparator
answers match despite the different row counts. -/
theorem compare_duplicate_rows_counterexample :
    ([([] : List Scalar), []].length = 2 ∧ [([] : List Scalar)].length = 1) ∧
    compare_query_results (some ⟨[], [[], []]⟩) (some ⟨[], [[]]⟩) = true :=
  ⟨⟨rfl, rfl⟩, by decide⟩

/-- C9: for every database behaviour and every query, execute_query returns
either a successful DataFrame with no error or no DataFrame with the
stringified error — every raising path of the body is caught, so nothing
escapes the boundary — and the connection-event trace is balanced: a
connection is closed exactly as often as one was opened, on success and on
every failure path. -/
theorem execute_query_contract (db : DbOracle) (q : String) :
    ((∃ d, (execute_query db q).1 = (some d, none)) ∨
      (∃ e, (execute_query db q).1 = (none, some e))) ∧
    ((execute_query db q).2.countP (fun e => decide (e = Ev.openC)) =
      (execute_query db q).2.countP (fun e => decide (e = Ev.closeC))) := by
  unfold execute_query
  cases hc : db.connect with
  | error e => exact ⟨Or.inr ⟨e, rfl⟩, rfl⟩
  | ok u =>
    cases hr : db.run q with
    | ok res => exact ⟨Or.inl ⟨pdDataFrame res, rfl⟩, rfl⟩
    | error e => exact ⟨Or.inr ⟨e, rfl⟩, rfl⟩

/-- C3 (amended): the comparator answers no-match whenever either outcome is
a Failure (missing DataFrame), identical errors included; and the driver
records a pair as an ExecutionError diagnostic — total incremented, match
count untouched, an error record prepended in iteration order — whenever the
Python truthiness test on the two error messages fires, i.e. whenever at
least one error message is a non-empty string.  (A Failure whose stringified
error is empty fails that truthiness test and is instead recorded as a
Mismatch diagnostic; it is still never counted as a match.) -/
theorem failure_routing :
    (∀ d : Option DataFrame, compare_query_results none d = false ∧
      compare_query_results d none = false) ∧
    ∀ (ex : String → Option DataFrame × Option String) (od rest : List (String × String))
      (nl tq oq : String), od.lookup nl = some oq →
      (truthy (ex tq).2 || truthy (ex oq).2) = true →
      evalPairs ex od ((nl, tq) :: rest) =
        ((evalPairs ex od rest).1 + 1, (evalPairs ex od rest).2.1,
          Record.errorRec nl tq oq (ex tq).2 (ex oq).2 :: (evalPairs ex od rest).2.2) := by
  constructor
  · intro d
    refine ⟨rfl, ?_⟩
    cases d <;> rfl
  · intro ex od rest nl tq oq hlook htr
    simp only [evalPairs, hlook]
    rw [if_pos htr]

/-- Witness for C3 (amended): a pair whose two executions both fail with
non-empty messages is recorded as an ExecutionError diagnostic and not
counted as a match. -/
theorem failure_routing_witness :
    compare_query_results none none = false ∧
    ([("p", "oq")] : List (String × String)).lookup "p" = some "oq" ∧
    (truthy (exFail "tq").2 || truthy (exFail "oq").2) = true ∧
    evalPairs exFail [("p", "oq")] [("p", "tq")] =
      (1, 0, [Record.errorRec "p" "tq" "oq" (some "err tq") (some "err oq")]) := by
  refine ⟨(failure_routing.1 none).1, by decide, by decide, ?_⟩
  rw [failure_routing.2 exFail [("p", "oq")] [] "p" "tq" "oq" (by decide) (by decide)]
  decide

/-- Counterexample to C3 as stated: when both outcomes are Failures with the
identical error message "" (a stringified exception can be empty), the pair
is appended to the diagnostics list as a Mismatch record — with signatures
and shapes, not error messages — rather than as an ExecutionError record; it
is still not counted as a match. -/
theorem failure_routing_counterexample :
    (evaluate_queries exEmptyErr [("p", "tq")] [("p", "oq")]).errors =
      [Record.mismatchRec "p" "tq" "oq" "empty_result" "empty_result" none none] ∧
    (evaluate_queries exEmptyErr [("p", "tq")] [("p", "oq")]).matchCount = 0 ∧
    (evaluate_queries exEmptyErr [("p", "tq")] [("p", "oq")]).total = 1 := by
  refine ⟨by decide, by decide, by decide⟩

/-- C6: a prompt present in the expected collection but absent from the
actual mapping is skipped entirely — the step contributes nothing to the
total, the match count or the diagnostics — and the total counts exactly the
prompts of the test mapping that are present in the output mapping. -/
theorem skip_missing_prompts :
    (∀ (ex : String → Option DataFrame × Option String) (od : List (String × String))
        (nl tq : String) (rest : List (String × String)),
      od.lookup nl = none →
      evalPairs ex od ((nl, tq) :: rest) = evalPairs ex od rest) ∧
    ∀ (ex : String → Option DataFrame × Option String)
      (testData outputData : List (String × String)),
      (evaluate_queries ex testData outputData).total =
        (buildDict testData).countP (fun p => ((buildDict outputData).lookup p.1).isSome) := by
  constructor
  · intro ex od nl tq rest hlook
    simp [evalPairs, hlook]
  · intro ex testData outputData
    exact evalPairs_total_countP ex (buildDict outputData) (buildDict testData)

/-- Witness for C6: a prompt missing from the output dictionary leaves the
evaluation state untouched. -/
theorem skip_missing_prompts_witness :
    ([("q", "x")] : List (String × String)).lookup "p" = none ∧
    evalPairs (fun _ => (none, none)) [("q", "x")] [("p", "t")] =
      evalPairs (fun _ => (none, none)) [("q", "x")] [] :=
  ⟨by decide, skip_missing_prompts.1 _ [("q", "x")] "p" "t" [] (by decide)⟩

/-- C7: when the two input collections share no prompt, the driver reports
total 0, matches 0 and accuracy 0 — the guarded accuracy formula takes its
else-branch, so no division is performed. -/
theorem disjoint_prompts_zero (ex : String → Option DataFrame × Option String)
    (testData outputData : List (String × String))
    (hdisj : (testData.map Prod.fst).all
      (fun k => decide (k ∉ outputData.map Prod.fst)) = true) :
    (evaluate_queries ex testData outputData).total = 0 ∧
    (evaluate_queries ex testData outputData).matchCount = 0 ∧
    (evaluate_queries ex testData outputData).accuracy = 0 := by
  have hdisj2 : ∀ k ∈ testData.map Prod.fst, k ∉ outputData.map Prod.fst := by
    intro k hk
    exact of_decide_eq_true (List.all_eq_true.mp hdisj k hk)
  have hnone : ∀ p ∈ buildDict testData, (buildDict outputData).lookup p.1 = none := by
    intro p hp
    cases hl : (buildDict outputData).lookup p.1 with
    | none => rfl
    | some v =>
      exfalso
      have hm1 : p.1 ∈ (buildDict outputData).map Prod.fst :=
        lookup_isSome_mem (by rw [hl]; rfl)
      have hm2 : p.1 ∈ testData.map Prod.fst :=
        fst_mem_buildDict (List.mem_map_of_mem Prod.fst hp)
      exact hdisj2 p.1 hm2 (fst_mem_buildDict hm1)
  have hz : evalPairs ex (buildDict outputData) (buildDict testData) = (0, 0, []) :=
    evalPairs_all_missing _ _ _ hnone
  refine ⟨?_, ?_, ?_⟩ <;> simp [evaluate_queries, hz]

/-- Witness for C7 at two one-item collections with different prompts. -/
theorem disjoint_prompts_zero_witness :
    ((([("a", "q1")] : List (String × String)).map Prod.fst).all
      (fun k => decide (k ∉ ([("b", "q2")] : List (String × String)).map Prod.fst)) = true) ∧
    (evaluate_queries (fun _ => (none, none)) [("a", "q1")] [("b", "q2")]).total = 0 ∧
    (evaluate_queries (fun _ => (none, none)) [("a", "q1")] [("b", "q2")]).matchCount = 0 ∧
    (evaluate_queries (fun _ => (none, none)) [("a", "q1")] [("b", "q2")]).accuracy = 0 := by
  have h := disjoint_prompts_zero (fun _ => (none, none)) [("a", "q1")] [("b", "q2")] (by decide)
  exact ⟨by decide, h.1, h.2.1, h.2.2⟩

/-- C8: for every pair of input collections the summary satisfies
total = matches + number of execution-error records + number of mismatch
records (each non-match pair contributing exactly one diagnostic record of
exactly one of the two shapes), and the accuracy percentage lies in
[0, 100]. -/
theorem summary_invariants (ex : String → Option DataFrame × Option String)
    (testData outputData : List (String × String)) :
    (evaluate_queries ex testData outputData).total =
        (evaluate_queries ex testData outputData).matchCount
        + ((evaluate_queries ex testData outputData).errors.countP Record.isErrorRec)
        + ((evaluate_queries ex testData outputData).errors.countP Record.isMismatchRec) ∧
    0 ≤ (evaluate_queries ex testData outputData).accuracy ∧
    (evaluate_queries ex testData outputData).accuracy ≤ 100 := by
  have hpart := evalPairs_partition ex (buildDict outputData) (buildDict testData)
  have hle := evalPairs_matchCount_le ex (buildDict outputData) (buildDict testData)
  have hacc : (evaluate_queries ex testData outputData).accuracy =
      if 0 < (evalPairs ex (buildDict outputData) (buildDict testData)).1
      then (((evalPairs ex (buildDict outputData) (buildDict testData)).2.1 : ℚ) /
        ((evalPairs ex (buildDict outputData) (buildDict testData)).1 : ℚ)) * 100
      else 0 := rfl
  refine ⟨hpart, ?_, ?_⟩
  · rw [hacc]
    split_ifs with ht
    · positivity
    · exact le_refl 0
  · rw [hacc]
    split_ifs with ht
    · have hmt : ((evalPairs ex (buildDict outputData) (buildDict testData)).2.1 : ℚ) ≤
          ((evalPairs ex (buildDict outputData) (buildDict testData)).1 : ℚ) := by
        exact_mod_cast hle
      have htq : (0 : ℚ) <
          ((evalPairs ex (buildDict outputData) (buildDict testData)).1 : ℚ) := by
        exact_mod_cast ht
      calc (((evalPairs ex (buildDict outputData) (buildDict testData)).2.1 : ℚ) /
            ((evalPairs ex (buildDict outputData) (buildDict testData)).1 : ℚ)) * 100
          ≤ 1 * 100 := by
            apply mul_le_mul_of_nonneg_right _ (by norm_num)
            exact (div_le_one htq).mpr hmt
        _ = 100 := by norm_num
    · norm_num
